import Mathlib

/-!
Shallow embedding of the ComicFusion admin panel front end.

Sources embedded:
* `src/components/ImageManager.tsx` — ordinal extraction (`getImageNumber`),
  the before/after pairing reconciler, `getAuthHeaders`, `fetchImages`,
  `handleUpload`, `handleDelete` and the request URLs/headers they build.
* `src/unnamed/part_000` — the `Home` page (`handleLogin`, `handleLogout`,
  `fetchCategories`) and the `AudioManager` component (`getAudioNumber`,
  `getCategoryAudios`, `maxNumber`, the slot grid, `fetchAudios`,
  `handleFileSelect`, audio `handleDelete`).

Modelling conventions:
* JavaScript numbers are modelled exactly (`Nat`/`Int`); the ordinals in play
  are small, so no double-precision effects matter.
* An HTTP response is a value of `HttpResult`: either a status code with a
  parsed body, or a network error (the `catch` branch of the source).
  A body field of type `Option β` is `none` when the response body does not
  have the shape the code destructures (so the corresponding property access
  throws and control reaches the `catch`, leaving state unchanged).
* `sessionStorage.getItem('admin_auth')` is modelled by `StoredVal`:
  the entry is absent, holds an unparsable string, or holds serialized
  credentials; `JSON.parse` failure is the `junk` case.
* Each `async` handler is embedded as a pure function from the response (and
  the state read when the response arrives) to the updated state, plus the
  alert message it raises, when any.  Transient UI fields (`loading`,
  `cacheKey`, drag state, the audio player) are not part of the state.
-/

namespace ComicFusionAdmin

/-! ### Ordinal extraction from filenames -/

/-- Numeric value of a digit string, as computed by `parseInt(digits, 10)`. -/
def digitsVal (cs : List Char) : Nat :=
  cs.foldl (fun acc c => acc * 10 + (c.toNat - 48)) 0

/-- Result of matching the anchored pattern of leading digits followed by a
literal dot against a character list: the JavaScript regex fragment
matching digits-then-dot at the start of the remaining input.  It succeeds
exactly when the list begins with a nonempty digit run whose next character
is a dot, capturing the digit run. -/
def leadingDigitsDot (cs : List Char) : Option Nat :=
  let run := cs.takeWhile Char.isDigit
  let rest := cs.dropWhile Char.isDigit
  if run = [] then none
  else if rest.head? = some '.' then some (digitsVal run) else none

/-- Embeds `getImageNumber` (ImageManager.tsx:99-102): match the anchored
regex of leading digits followed by a dot, returning the captured integer,
and `-1` when there is no match. -/
def getImageNumber (s : String) : Int :=
  match leadingDigitsDot s.data with
  | some n => (n : Int)
  | none => -1

/-- Leftmost-match search of the unanchored regex digits-then-dot: the engine
tries an anchored match at each successive position. -/
def scanAudio : List Char → Option Nat
  | [] => none
  | c :: cs =>
    match leadingDigitsDot (c :: cs) with
    | some n => some n
    | none => scanAudio cs

/-- Embeds `getAudioNumber` (part_000:274-278): guard against a falsy
filename, then match the unanchored regex digits-then-dot, returning the
captured integer and `0` when there is no match. -/
def getAudioNumber (s : String) : Nat :=
  if s = "" then 0 else (scanAudio s.data).getD 0

/-- Spec-side ordinal rule, stated from the specification's words alone:
for filenames whose leading digits are immediately followed by a literal dot
the ordinal is that integer; every other filename has no ordinal.  Declared
separately from the source functions so the two can be compared. -/
def specOrdinal (s : String) : Option Nat :=
  if s.data.takeWhile Char.isDigit ≠ [] ∧
      (s.data.dropWhile Char.isDigit).head? = some '.' then
    some (digitsVal (s.data.takeWhile Char.isDigit))
  else none

/-! ### Data model -/

/-- Asset type tag, the TypeScript union of the two string literals. -/
inductive ImgType
  | before
  | after
deriving DecidableEq, Repr

/-- Rendering of an `ImgType` as the string used in storage paths. -/
def imgTypeStr : ImgType → String
  | ImgType.before => "before"
  | ImgType.after => "after"

/-- Embeds the `S3Image` record (ImageManager.tsx:6-15). -/
structure S3Image where
  url : String
  filename : String
  size : Nat
  lastModified : String
  key : String
  category : String
  subcategory : Option String
  type : ImgType
deriving DecidableEq, Repr

/-- Embeds the `ImagePair` record (ImageManager.tsx:17-21). -/
structure ImagePair where
  filename : String
  before : Option S3Image
  after : Option S3Image
deriving DecidableEq, Repr

/-- Embeds the `Category` record (part_000:8-12). -/
structure Category where
  id : String
  name : String
  description : String
deriving DecidableEq, Repr

/-- Embeds the `AudioFile` record (part_000:219-227); the string-literal
unions for speaker mode and language are kept as strings. -/
structure AudioFile where
  key : String
  url : String
  size : Nat
  last_modified : String
  speaker_mode : String
  language : String
  filename : String
deriving DecidableEq, Repr

/-- Operator credentials (part_000:20,71). -/
structure Credentials where
  username : String
  password : String
deriving DecidableEq, Repr

/-! ### Pairing reconciler (ImageManager.tsx:90-131) -/

/-- JavaScript `Map` specialised to the reconciler's use: an insertion-ordered
association list from numbers to images. -/
abbrev NumMap := List (Int × S3Image)

/-- `Map.set`: replace the value at an existing key, otherwise append. -/
def mapSet (m : NumMap) (k : Int) (v : S3Image) : NumMap :=
  if m.any (fun p => p.1 == k) then
    m.map (fun p => if p.1 == k then (k, v) else p)
  else m ++ [(k, v)]

/-- `Map.get`: the value at a key, when present. -/
def mapGet (m : NumMap) (k : Int) : Option S3Image :=
  (m.find? (fun p => p.1 == k)).map Prod.snd

/-- `Map.keys`, in insertion order. -/
def mapKeys (m : NumMap) : List Int := m.map Prod.fst

/-- Body of the `forEach` at ImageManager.tsx:108-116: insert an image under
its extracted number when that number is positive, else skip it. -/
def buildStep (m : NumMap) (img : S3Image) : NumMap :=
  let num := getImageNumber img.filename
  if 0 < num then mapSet m num img else m

/-- Accumulation of one partition's number-to-image map. -/
def buildMap (imgs : List S3Image) : NumMap :=
  imgs.foldl buildStep []

/-- Map built from the `before` partition (ImageManager.tsx:95,105,108-111). -/
def beforeMap (imgs : List S3Image) : NumMap :=
  buildMap (imgs.filter (fun i => i.type == ImgType.before))

/-- Map built from the `after` partition (ImageManager.tsx:96,106,113-116). -/
def afterMap (imgs : List S3Image) : NumMap :=
  buildMap (imgs.filter (fun i => i.type == ImgType.after))

/-- JavaScript `Set` construction: keep the first occurrence of each element,
preserving insertion order. -/
def setDedupA (seen : List Int) : List Int → List Int
  | [] => []
  | x :: xs => if x ∈ seen then setDedupA seen xs else x :: setDedupA (x :: seen) xs

/-- `new Set([...beforeMap.keys(), ...afterMap.keys()])` as an ordered list. -/
def setDedup (l : List Int) : List Int := setDedupA [] l

/-- Embeds ImageManager.tsx:119-123: the union of the two key sets, sorted
ascending by the numeric comparator. -/
def reconcileNums (imgs : List S3Image) : List Int :=
  (setDedup (mapKeys (beforeMap imgs) ++ mapKeys (afterMap imgs))).insertionSort (· ≤ ·)

/-- Embeds ImageManager.tsx:122-128: one pair per number, carrying whatever
each partition's map holds at that number. -/
def reconcilePairs (imgs : List S3Image) : List ImagePair :=
  (reconcileNums imgs).map (fun num =>
    { filename := toString num
      before := mapGet (beforeMap imgs) num
      after := mapGet (afterMap imgs) num })

/-! ### Base64 and auth headers -/

/-- Base64 alphabet. -/
def b64Alphabet : List Char :=
  "ABCDEFGHIJKLMNOPQRSTUVWXYZabcdefghijklmnopqrstuvwxyz0123456789+/".data

/-- Character for one 6-bit group. -/
def b64Char (n : Nat) : Char := b64Alphabet.getD n 'A'

/-- Base64 encoding of a byte sequence, with padding. -/
def b64Encode : List Nat → List Char
  | [] => []
  | [a] => [b64Char (a / 4), b64Char (a % 4 * 16), '=', '=']
  | [a, b] => [b64Char (a / 4), b64Char (a % 4 * 16 + b / 16), b64Char (b % 16 * 4), '=']
  | a :: b :: c :: rest =>
    b64Char (a / 4) :: b64Char (a % 4 * 16 + b / 16) ::
      b64Char (b % 16 * 4 + c / 64) :: b64Char (c % 64) :: b64Encode rest

/-- Browser `btoa` on a Latin-1 string: base64 of its character codes. -/
def btoa (s : String) : String := String.mk (b64Encode (s.data.map Char.toNat))

/-- Value of the `Authorization` header built from credentials, the
expression `'Basic ' + btoa(username + ':' + password)` used at
ImageManager.tsx:43, part_000:51 and part_000:99. -/
def basicAuth (c : Credentials) : String :=
  "Basic " ++ btoa (c.username ++ ":" ++ c.password)

/-- Classes of content of `sessionStorage.getItem('admin_auth')`: no entry,
an entry `JSON.parse` rejects, or serialized credentials. -/
inductive StoredVal
  | absent
  | junk
  | creds (c : Credentials)
deriving DecidableEq, Repr

/-- Embeds `getAuthHeaders` (ImageManager.tsx:36-48): empty header object
when the entry is absent, empty when parsing throws (the `catch` branch),
and the Basic header built from the parsed credentials otherwise. -/
def getAuthHeaders (stored : StoredVal) : List (String × String) :=
  match stored with
  | StoredVal.absent => []
  | StoredVal.junk => []
  | StoredVal.creds c => [("Authorization", basicAuth c)]

/-! ### Request URLs and per-request headers -/

/-- Embeds `process.env.NEXT_PUBLIC_API_URL || 'http://localhost:8000'`
(ImageManager.tsx:136,162,198; part_000:48,98): the configured base URL,
falling back to the fixed local default when the variable is unset or empty
(JavaScript `||` treats the empty string as falsy). -/
def apiUrl (env : Option String) : String :=
  match env with
  | some s => if s = "" then "http://localhost:8000" else s
  | none => "http://localhost:8000"

/-- URL of the categories request (part_000:52,101). -/
def categoriesUrl (env : Option String) : String :=
  apiUrl env ++ "/admin/examples/categories"

/-- URL of the image listing request (ImageManager.tsx:137). -/
def listUrl (env : Option String) : String :=
  apiUrl env ++ "/admin/examples/list"

/-- URL of the image upload request (ImageManager.tsx:173). -/
def uploadUrl (env : Option String) : String :=
  apiUrl env ++ "/admin/examples/upload"

/-- Deletion path for an image (ImageManager.tsx:200-207): the subcategory
segment is present exactly when the asset has one. -/
def deletePath (img : S3Image) : String :=
  match img.subcategory with
  | some sc => img.category ++ "/" ++ sc ++ "/" ++ imgTypeStr img.type ++ "/" ++ img.filename
  | none => img.category ++ "/" ++ imgTypeStr img.type ++ "/" ++ img.filename

/-- URL of the image delete request (ImageManager.tsx:209-210). -/
def deleteUrl (env : Option String) (img : S3Image) : String :=
  apiUrl env ++ "/admin/examples/delete/" ++ deletePath img

/-- URL of the audio listing request (part_000:264): a hardcoded constant,
not built from the configured base URL. -/
def audioListUrl : String := "http://localhost:8000/admin/examples/audio/list"

/-- URL of the audio upload request (part_000:294), likewise hardcoded. -/
def audioUploadUrl : String := "http://localhost:8000/admin/examples/audio/upload"

/-- URL of the audio delete request (part_000:318-319), likewise hardcoded. -/
def audioDeleteUrl (a : AudioFile) : String :=
  "http://localhost:8000/admin/examples/audio/delete/" ++
    a.speaker_mode ++ "/" ++ a.language ++ "/" ++ a.filename

/-- Headers of the login probe request (part_000:51-56). -/
def loginHeaders (u p : String) : List (String × String) :=
  [("Authorization", "Basic " ++ btoa (u ++ ":" ++ p))]

/-- Headers of the categories request issued by `fetchCategories`
(part_000:99-105), built from the in-memory credentials. -/
def categoriesHeaders (c : Credentials) : List (String × String) :=
  [("Authorization", "Basic " ++ btoa (c.username ++ ":" ++ c.password))]

/-- Headers of the image listing request (ImageManager.tsx:137-139). -/
def listHeaders (stored : StoredVal) : List (String × String) := getAuthHeaders stored

/-- Headers of the image upload request (ImageManager.tsx:173-177). -/
def uploadHeaders (stored : StoredVal) : List (String × String) := getAuthHeaders stored

/-- Headers of the image delete request (ImageManager.tsx:209-215). -/
def deleteHeaders (stored : StoredVal) : List (String × String) := getAuthHeaders stored

/-- Headers of the audio listing request: the `fetch` at part_000:264 passes
no headers at all. -/
def audioListHeaders : List (String × String) := []

/-- Headers of the audio upload request: the `fetch` at part_000:294-297
passes only method and body. -/
def audioUploadHeaders : List (String × String) := []

/-- Headers of the audio delete request: the `fetch` at part_000:318-321
passes only the method. -/
def audioDeleteHeaders : List (String × String) := []

/-! ### Client state and response handlers -/

/-- HTTP outcome seen by a handler: a status code with the parsed body, or a
network/parse error reaching the handler's `catch`. -/
inductive HttpResult (α : Type)
  | ok (status : Nat) (body : α)
  | networkError
deriving DecidableEq, Repr

/-- Outcome of a mutation request: `response.ok` (then the handler awaits a
re-fetch of the listing, whose own outcome is carried along), a non-2xx
response with the backend's `detail` field, or a network error. -/
inductive MutationResp (β : Type)
  | success (refetch : HttpResult (Option β))
  | failure (detail : String)
  | network
deriving DecidableEq, Repr

/-- `response.ok`: status in the 2xx range. -/
def respOk (status : Nat) : Bool := 200 ≤ status && status ≤ 299

/-- Combined client state: the `Home` page's auth/category state together
with the listing state of the two manager components. -/
structure AppState where
  isAuthenticated : Bool
  credentials : Option Credentials
  storedAuth : StoredVal
  categories : List Category
  selectedCategory : String
  authError : String
  images : List S3Image
  audios : List AudioFile
deriving DecidableEq, Repr

/-- Auth-relevant projection of the state, used to phrase that a handler
leaves session authentication untouched. -/
def authFields (st : AppState) : Bool × Option Credentials × StoredVal :=
  (st.isAuthenticated, st.credentials, st.storedAuth)

namespace Home

/-- Embeds `handleLogout` (part_000:83-89). -/
def handleLogout (st : AppState) : AppState :=
  { st with
    isAuthenticated := false
    credentials := none
    storedAuth := StoredVal.absent
    categories := []
    selectedCategory := "" }

/-- Embeds `handleLogin` (part_000:43-81) from the probe response onward:
401 shows the invalid-credentials message, any other non-2xx shows the
generic failure, a network error shows the connectivity failure, and only a
2xx stores the credentials and authenticates. -/
def handleLogin (u p : String) (resp : HttpResult Unit) (st : AppState) : AppState :=
  let st1 := { st with authError := "" }
  match resp with
  | HttpResult.networkError => { st1 with authError := "Failed to connect to server" }
  | HttpResult.ok status _ =>
    if status == 401 then { st1 with authError := "Invalid username or password" }
    else if !respOk status then { st1 with authError := "Authentication failed" }
    else
      { st1 with
        credentials := some { username := u, password := p }
        storedAuth := StoredVal.creds { username := u, password := p }
        isAuthenticated := true }

/-- Embeds `fetchCategories` (part_000:91-121) from the response onward,
including the not-authenticated guard, the 401-triggered logout, the
`data.categories || []` default and the initial category selection; a
network error reaches the `catch`, which clears the category list. -/
def fetchCategories (resp : HttpResult (Option (List Category))) (st : AppState) : AppState :=
  if st.credentials.isNone || !st.isAuthenticated then st
  else
    match resp with
    | HttpResult.networkError => { st with categories := [] }
    | HttpResult.ok status body =>
      if status == 401 then handleLogout st
      else
        match body.getD [] with
        | [] => { st with categories := body.getD [] }
        | c :: _ => { st with categories := body.getD [], selectedCategory := c.id }

end Home

namespace ImageManager

/-- Category and subcategory filter applied to a fetched listing
(ImageManager.tsx:142-148). -/
def filterListing (category : String) (subcat : Option String)
    (imgs : List S3Image) : List S3Image :=
  let cat1 := imgs.filter (fun i => i.category == category)
  match subcat with
  | some sc => cat1.filter (fun i => i.subcategory == some sc)
  | none => cat1

/-- Embeds `fetchImages` (ImageManager.tsx:133-157) from the response onward.
The status code is never inspected; a body without an `images` array makes
the destructuring throw into the `catch`, leaving the listing unchanged. -/
def fetchImages (category : String) (subcat : Option String)
    (resp : HttpResult (Option (List S3Image))) (st : AppState) : AppState :=
  match resp with
  | HttpResult.networkError => st
  | HttpResult.ok _ none => st
  | HttpResult.ok _ (some imgs) => { st with images := filterListing category subcat imgs }

/-- Embeds `handleUpload` (ImageManager.tsx:159-192) from the response
onward: a 2xx response triggers the listing re-fetch and a success alert;
a non-2xx response surfaces the backend's `detail`; a network error surfaces
the generic message.  The second component is the alert text. -/
def handleUpload (category : String) (subcat : Option String) (isVideo : Bool)
    (resp : MutationResp (List S3Image)) (st : AppState) : AppState × String :=
  match resp with
  | MutationResp.success refetch =>
    (fetchImages category subcat refetch st,
      (if isVideo then "Video" else "Image") ++ " uploaded successfully!")
  | MutationResp.failure detail => (st, "Upload failed: " ++ detail)
  | MutationResp.network => (st, "Upload failed")

/-- Embeds `handleDelete` (ImageManager.tsx:194-228) from the confirmation
dialog onward; a declined confirmation issues no request at all. -/
def handleDelete (category : String) (subcat : Option String) (confirmed : Bool)
    (resp : MutationResp (List S3Image)) (st : AppState) : AppState × Option String :=
  if !confirmed then (st, none)
  else
    match resp with
    | MutationResp.success refetch =>
      (fetchImages category subcat refetch st, some "Image deleted successfully!")
    | MutationResp.failure detail => (st, some ("Delete failed: " ++ detail))
    | MutationResp.network => (st, some "Delete failed")

end ImageManager

namespace AudioManager

/-- Embeds `fetchAudios` (part_000:261-272) from the response onward: the
status is never inspected; a body `res.json()` rejects reaches the `catch`. -/
def fetchAudios (resp : HttpResult (Option (List AudioFile))) (st : AppState) : AppState :=
  match resp with
  | HttpResult.networkError => st
  | HttpResult.ok _ none => st
  | HttpResult.ok _ (some l) => { st with audios := l }

/-- Embeds `handleFileSelect` (part_000:286-312), the audio upload handler,
from the response onward. -/
def handleFileSelect (resp : MutationResp (List AudioFile)) (st : AppState) :
    AppState × String :=
  match resp with
  | MutationResp.success refetch => (fetchAudios refetch st, "Audio uploaded successfully!")
  | MutationResp.failure detail => (st, "Upload failed: " ++ detail)
  | MutationResp.network => (st, "Upload failed")

/-- Embeds the audio `handleDelete` (part_000:314-333) from the confirmation
dialog onward; a successful deletion re-fetches without an alert. -/
def handleDelete (confirmed : Bool) (resp : MutationResp (List AudioFile))
    (st : AppState) : AppState × Option String :=
  if !confirmed then (st, none)
  else
    match resp with
    | MutationResp.success refetch => (fetchAudios refetch st, none)
    | MutationResp.failure detail => (st, some ("Delete failed: " ++ detail))
    | MutationResp.network => (st, some "Delete failed")

/-- Ordering of audio files by extracted ordinal, the comparator at
part_000:283. -/
def audioLE (a b : AudioFile) : Prop :=
  getAudioNumber a.filename ≤ getAudioNumber b.filename

instance : DecidableRel audioLE := fun a b =>
  Nat.decLe (getAudioNumber a.filename) (getAudioNumber b.filename)

/-- Embeds `getCategoryAudios` (part_000:280-284): the audios of one
(speaker mode, language) cell, sorted ascending by extracted ordinal. -/
def getCategoryAudios (audios : List AudioFile) (speaker language : String) :
    List AudioFile :=
  (audios.filter (fun a => a.speaker_mode == speaker && a.language == language)).insertionSort
    audioLE

/-- Embeds `maxNumber` (part_000:353): `Math.max` over the cell's extracted
ordinals together with `0`. -/
def maxNumber (audios : List AudioFile) (speaker language : String) : Nat :=
  ((getCategoryAudios audios speaker language).map (fun a => getAudioNumber a.filename)).foldr
    max 0

/-- Embeds the slot list of the audio grid (part_000:401):
`Array.from({length: Math.max(maxNumber, 3)}, (_, i) => i + 1)`. -/
def audioSlots (audios : List AudioFile) (speaker language : String) : List Nat :=
  (List.range (max (maxNumber audios speaker language) 3)).map (· + 1)

/-- Number announced for the next upload (part_000:517): `maxNumber + 1`. -/
def nextAudioNumber (audios : List AudioFile) (speaker language : String) : Nat :=
  maxNumber audios speaker language + 1

end AudioManager

/-! ### Concrete inputs used by witnesses and counterexamples -/

/-- Concrete before-asset numbered 1. -/
def img_b1 : S3Image :=
  { url := "u1", filename := "1.jpg", size := 10, lastModified := "t1", key := "k1"
    category := "art-restoration", subcategory := some "mosaic", type := ImgType.before }

/-- Concrete after-asset numbered 1. -/
def img_a1 : S3Image :=
  { url := "u2", filename := "1.jpg", size := 11, lastModified := "t2", key := "k2"
    category := "art-restoration", subcategory := some "mosaic", type := ImgType.after }

/-- Concrete before-asset numbered 2, with no after-side counterpart. -/
def img_b2 : S3Image :=
  { url := "u3", filename := "2.jpg", size := 12, lastModified := "t3", key := "k3"
    category := "art-restoration", subcategory := some "mosaic", type := ImgType.before }

/-- Concrete before-asset whose filename yields ordinal 0. -/
def img_b0 : S3Image :=
  { url := "u4", filename := "0.jpg", size := 13, lastModified := "t4", key := "k4"
    category := "art-restoration", subcategory := some "mosaic", type := ImgType.before }

/-- Concrete before-asset whose filename yields no ordinal. -/
def img_junk : S3Image :=
  { url := "u5", filename := "cover.jpg", size := 14, lastModified := "t5", key := "k5"
    category := "art-restoration", subcategory := some "mosaic", type := ImgType.before }

/-- Concrete asset list exercising the reconciler. -/
def imgs0 : List S3Image := [img_b1, img_a1, img_b2, img_b0, img_junk]

/-- Concrete audio file with ordinal 2. -/
def aud1 : AudioFile :=
  { key := "ak1", url := "au1", size := 5, last_modified := "at1"
    speaker_mode := "single-speaker", language := "english", filename := "2.mp3" }

/-- Concrete audio list. -/
def auds0 : List AudioFile := [aud1]

/-- Concrete authenticated state with cached credentials. -/
def st1 : AppState :=
  { isAuthenticated := true
    credentials := some { username := "admin", password := "pw" }
    storedAuth := StoredVal.creds { username := "admin", password := "pw" }
    categories := [{ id := "art-restoration", name := "Art Restoration", description := "d" }]
    selectedCategory := "art-restoration"
    authError := ""
    images := [img_b1]
    audios := [] }

/-- Concrete unauthenticated state, as seen by the login page. -/
def st0 : AppState :=
  { isAuthenticated := false
    credentials := none
    storedAuth := StoredVal.absent
    categories := []
    selectedCategory := ""
    authError := ""
    images := []
    audios := [] }

end ComicFusionAdmin

namespace ComicFusionAdmin

/-! ### Lemmas about ordinal extraction -/

/-- Equivalence of the spec-side ordinal rule with the source's anchored
matcher. -/
theorem specOrdinal_eq (s : String) : specOrdinal s = leadingDigitsDot s.data := by
  unfold specOrdinal leadingDigitsDot
  by_cases h1 : s.data.takeWhile Char.isDigit = []
  · simp [h1]
  · by_cases h2 : (s.data.dropWhile Char.isDigit).head? = some '.'
    · simp [h1, h2]
    · simp [h1, h2]

/-- Agreement of the unanchored scan with the anchored matcher whenever the
anchored matcher succeeds: the leftmost match then starts at position 0. -/
theorem scanAudio_of_leading (cs : List Char) (n : Nat)
    (h : leadingDigitsDot cs = some n) : scanAudio cs = some n := by
  cases cs with
  | nil => simp [leadingDigitsDot] at h
  | cons c rest => simp [scanAudio, h]

/-! ### Lemmas about the number maps -/

/-- Keys after a `Map.set`: the inserted key together with the old keys. -/
theorem mem_mapKeys_mapSet (m : NumMap) (k j : Int) (v : S3Image) :
    j ∈ mapKeys (mapSet m k v) ↔ j = k ∨ j ∈ mapKeys m := by
  unfold mapSet mapKeys
  by_cases h : m.any (fun p => p.1 == k) = true
  · rw [if_pos h, List.any_eq_true] at *
    obtain ⟨q, hq, hqk⟩ := h
    simp only [List.map_map, List.mem_map, Function.comp]
    constructor
    · rintro ⟨p, hp, hfp⟩
      by_cases hpk : (p.1 == k) = true
      · left; rw [if_pos hpk] at hfp; exact hfp ▸ rfl
      · right; rw [if_neg hpk] at hfp; exact ⟨p, hp, hfp⟩
    · rintro (rfl | ⟨p, hp, rfl⟩)
      · exact ⟨q, hq, by rw [if_pos hqk]⟩
      · by_cases hpk : (p.1 == k) = true
        · refine ⟨p, hp, ?_⟩
          rw [if_pos hpk]
          exact (beq_iff_eq.mp hpk).symm
        · exact ⟨p, hp, by rw [if_neg hpk]⟩
  · rw [if_neg h]
    simp only [List.map_append, List.mem_append, List.map_cons, List.map_nil,
      List.mem_singleton]
    tauto

/-- A `Map.get` succeeds exactly on the keys of the map. -/
theorem mapGet_isSome (m : NumMap) (k : Int) :
    (mapGet m k).isSome = true ↔ k ∈ mapKeys m := by
  unfold mapGet mapKeys
  have hmap : ∀ (o : Option (Int × S3Image)), (Option.map Prod.snd o).isSome = o.isSome := by
    intro o; cases o <;> rfl
  rw [hmap, List.find?_isSome]
  simp [List.mem_map, beq_iff_eq]

/-- Keys accumulated by the `forEach` fold over a partition, for an arbitrary
starting map. -/
theorem mem_mapKeys_foldl (imgs : List S3Image) :
    ∀ (m : NumMap) (k : Int),
      k ∈ mapKeys (imgs.foldl buildStep m) ↔
        k ∈ mapKeys m ∨ ∃ img ∈ imgs, getImageNumber img.filename = k ∧ 0 < k := by
  induction imgs with
  | nil => intro m k; simp
  | cons i is ih =>
    intro m k
    rw [List.foldl_cons, ih]
    unfold buildStep
    by_cases h : 0 < getImageNumber i.filename
    · rw [if_pos h, mem_mapKeys_mapSet]
      constructor
      · rintro ((rfl | hk) | ⟨img, himg, hnum, hpos⟩)
        · exact Or.inr ⟨i, List.mem_cons_self i is, rfl, h⟩
        · exact Or.inl hk
        · exact Or.inr ⟨img, List.mem_cons_of_mem i himg, hnum, hpos⟩
      · rintro (hk | ⟨img, himg, hnum, hpos⟩)
        · exact Or.inl (Or.inr hk)
        · rcases List.mem_cons.mp himg with rfl | himg
          · exact Or.inl (Or.inl hnum.symm)
          · exact Or.inr ⟨img, himg, hnum, hpos⟩
    · rw [if_neg h]
      constructor
      · rintro (hk | ⟨img, himg, hnum, hpos⟩)
        · exact Or.inl hk
        · exact Or.inr ⟨img, List.mem_cons_of_mem i himg, hnum, hpos⟩
      · rintro (hk | ⟨img, himg, hnum, hpos⟩)
        · exact Or.inl hk
        · rcases List.mem_cons.mp himg with rfl | himg
          · exact absurd (hnum ▸ hpos) h
          · exact Or.inr ⟨img, himg, hnum, hpos⟩

/-- Keys of a partition map: exactly the positive extracted numbers of the
partition's images. -/
theorem mem_mapKeys_buildMap (imgs : List S3Image) (k : Int) :
    k ∈ mapKeys (buildMap imgs) ↔
      ∃ img ∈ imgs, getImageNumber img.filename = k ∧ 0 < k := by
  unfold buildMap
  rw [mem_mapKeys_foldl]
  simp [mapKeys]

/-- Keys of the before-partition map, phrased over the full asset list. -/
theorem mem_keys_beforeMap (imgs : List S3Image) (n : Int) :
    n ∈ mapKeys (beforeMap imgs) ↔
      0 < n ∧ ∃ img ∈ imgs, img.type = ImgType.before ∧
        getImageNumber img.filename = n := by
  unfold beforeMap
  rw [mem_mapKeys_buildMap]
  constructor
  · rintro ⟨img, hmem, hnum, hpos⟩
    rw [List.mem_filter] at hmem
    exact ⟨hpos, img, hmem.1, beq_iff_eq.mp hmem.2, hnum⟩
  · rintro ⟨hpos, img, hmem, htype, hnum⟩
    exact ⟨img, List.mem_filter.mpr ⟨hmem, beq_iff_eq.mpr htype⟩, hnum, hpos⟩

/-- Keys of the after-partition map, phrased over the full asset list. -/
theorem mem_keys_afterMap (imgs : List S3Image) (n : Int) :
    n ∈ mapKeys (afterMap imgs) ↔
      0 < n ∧ ∃ img ∈ imgs, img.type = ImgType.after ∧
        getImageNumber img.filename = n := by
  unfold afterMap
  rw [mem_mapKeys_buildMap]
  constructor
  · rintro ⟨img, hmem, hnum, hpos⟩
    rw [List.mem_filter] at hmem
    exact ⟨hpos, img, hmem.1, beq_iff_eq.mp hmem.2, hnum⟩
  · rintro ⟨hpos, img, hmem, htype, hnum⟩
    exact ⟨img, List.mem_filter.mpr ⟨hmem, beq_iff_eq.mpr htype⟩, hnum, hpos⟩

/-! ### Lemmas about the set-based deduplication -/

/-- Membership in the deduplicated list, relative to the already-seen set. -/
theorem mem_setDedupA (x : Int) (l : List Int) :
    ∀ seen, x ∈ setDedupA seen l ↔ x ∈ l ∧ x ∉ seen := by
  induction l with
  | nil => intro seen; simp [setDedupA]
  | cons y ys ih =>
    intro seen
    unfold setDedupA
    by_cases hy : y ∈ seen
    · rw [if_pos hy, ih]
      constructor
      · rintro ⟨h1, h2⟩; exact ⟨List.mem_cons_of_mem y h1, h2⟩
      · rintro ⟨h1, h2⟩
        rcases List.mem_cons.mp h1 with rfl | h1
        · exact absurd hy h2
        · exact ⟨h1, h2⟩
    · rw [if_neg hy]
      rw [List.mem_cons, ih (y :: seen)]
      constructor
      · rintro (rfl | ⟨h1, h2⟩)
        · exact ⟨List.mem_cons_self x ys, hy⟩
        · refine ⟨List.mem_cons_of_mem y h1, fun hs => h2 (List.mem_cons_of_mem y hs)⟩
      · rintro ⟨h1, h2⟩
        by_cases hxy : x = y
        · exact Or.inl hxy
        · rcases List.mem_cons.mp h1 with rfl | h1
          · exact absurd rfl hxy
          · refine Or.inr ⟨h1, fun hs => ?_⟩
            rcases List.mem_cons.mp hs with rfl | hs
            · exact hxy rfl
            · exact h2 hs

/-- The deduplicated list has no duplicates. -/
theorem nodup_setDedupA (l : List Int) : ∀ seen, (setDedupA seen l).Nodup := by
  induction l with
  | nil => intro seen; simp [setDedupA]
  | cons y ys ih =>
    intro seen
    unfold setDedupA
    by_cases hy : y ∈ seen
    · rw [if_pos hy]; exact ih seen
    · rw [if_neg hy]
      refine List.nodup_cons.mpr ⟨fun hmem => ?_, ih (y :: seen)⟩
      exact ((mem_setDedupA y ys (y :: seen)).mp hmem).2 (List.mem_cons_self y seen)

/-- Membership in the JavaScript-Set deduplication. -/
theorem mem_setDedup (x : Int) (l : List Int) : x ∈ setDedup l ↔ x ∈ l := by
  unfold setDedup
  rw [mem_setDedupA]
  simp

/-- Deduplication produces a duplicate-free list. -/
theorem nodup_setDedup (l : List Int) : (setDedup l).Nodup := nodup_setDedupA l []

/-! ### Membership in the reconciled ordinal sequence -/

/-- Characterisation of the ordinals produced by the reconciler: exactly the
positive extracted numbers occurring in one of the two partitions. -/
theorem mem_reconcileNums (imgs : List S3Image) (n : Int) :
    n ∈ reconcileNums imgs ↔
      0 < n ∧ ((∃ img ∈ imgs, img.type = ImgType.before ∧
                  getImageNumber img.filename = n) ∨
               (∃ img ∈ imgs, img.type = ImgType.after ∧
                  getImageNumber img.filename = n)) := by
  unfold reconcileNums
  rw [(List.perm_insertionSort _ _).mem_iff, mem_setDedup, List.mem_append,
    mem_keys_beforeMap, mem_keys_afterMap]
  exact and_or_left.symm

/-- Positivity of every reconciled ordinal. -/
theorem pos_of_mem_reconcileNums (imgs : List S3Image) (n : Int)
    (hn : n ∈ reconcileNums imgs) : 0 < n :=
  ((mem_reconcileNums imgs n).mp hn).1

/-! ### Invariance under dropping non-positive ordinals -/

/-- The fold building a partition map ignores images with non-positive
extracted numbers. -/
theorem foldl_buildStep_filter (imgs : List S3Image) :
    ∀ m : NumMap,
      (imgs.filter (fun img => 0 < getImageNumber img.filename)).foldl buildStep m =
        imgs.foldl buildStep m := by
  induction imgs with
  | nil => intro m; rfl
  | cons i is ih =>
    intro m
    by_cases h : 0 < getImageNumber i.filename
    · rw [List.filter_cons_of_pos (by simpa using h), List.foldl_cons,
        List.foldl_cons, ih]
    · have hstep : buildStep m i = m := by unfold buildStep; rw [if_neg h]
      rw [List.filter_cons_of_neg (by simpa using h), List.foldl_cons, hstep, ih]

/-- Two boolean filters over a list commute. -/
theorem filter_swap (p q : S3Image → Bool) (l : List S3Image) :
    (l.filter q).filter p = (l.filter p).filter q := by
  rw [List.filter_filter, List.filter_filter]
  congr 1
  funext a
  rw [Bool.and_comm]

/-- Dropping non-positively-numbered assets does not change the
before-partition map. -/
theorem beforeMap_filter_pos (imgs : List S3Image) :
    beforeMap (imgs.filter (fun img => 0 < getImageNumber img.filename)) =
      beforeMap imgs := by
  unfold beforeMap buildMap
  rw [filter_swap]
  exact foldl_buildStep_filter _ _

/-- Dropping non-positively-numbered assets does not change the
after-partition map. -/
theorem afterMap_filter_pos (imgs : List S3Image) :
    afterMap (imgs.filter (fun img => 0 < getImageNumber img.filename)) =
      afterMap imgs := by
  unfold afterMap buildMap
  rw [filter_swap]
  exact foldl_buildStep_filter _ _

/-! ### Fold-max lemmas for the audio grid -/

/-- Every element is bounded by the fold of `max` seeded with `0`. -/
theorem le_foldr_max (l : List Nat) : ∀ x ∈ l, x ≤ l.foldr max 0 := by
  induction l with
  | nil => intro x hx; cases hx
  | cons a t ih =>
    intro x hx
    rw [List.foldr_cons]
    rcases List.mem_cons.mp hx with rfl | h
    · exact Nat.le_max_left _ _
    · exact le_trans (ih x h) (Nat.le_max_right _ _)

/-- The fold of `max` seeded with `0` is zero or attained by an element. -/
theorem foldr_max_mem (l : List Nat) : l.foldr max 0 = 0 ∨ l.foldr max 0 ∈ l := by
  induction l with
  | nil => exact Or.inl rfl
  | cons a t ih =>
    rw [List.foldr_cons]
    rcases max_choice a (t.foldr max 0) with h | h
    · rw [h]; exact Or.inr (List.mem_cons_self a t)
    · rw [h]
      rcases ih with h0 | hm
      · exact Or.inl h0
      · exact Or.inr (List.mem_cons_of_mem a hm)

/-! ### Claim C1 -/

/-- C1: for every input asset list, the reconciled ordinal sequence is sorted
ascending and duplicate-free; an ordinal occurs in it exactly when it is the
positive extracted number of some asset of the before- or after-partition;
the pair list is exactly one pair per reconciled ordinal; and a pair's
before/after side is present exactly when the corresponding partition
contains an asset with that ordinal — so an ordinal present on one side only
yields an incomplete pair rather than being dropped. -/
theorem C1_pairing_reconciler (imgs : List S3Image) :
    List.Sorted (· ≤ ·) (reconcileNums imgs) ∧
    (reconcileNums imgs).Nodup ∧
    (∀ n : Int, n ∈ reconcileNums imgs ↔
      0 < n ∧ ((∃ img ∈ imgs, img.type = ImgType.before ∧
                  getImageNumber img.filename = n) ∨
               (∃ img ∈ imgs, img.type = ImgType.after ∧
                  getImageNumber img.filename = n))) ∧
    reconcilePairs imgs = (reconcileNums imgs).map (fun num =>
      { filename := toString num
        before := mapGet (beforeMap imgs) num
        after := mapGet (afterMap imgs) num }) ∧
    (∀ n : Int, n ∈ reconcileNums imgs →
      (((mapGet (beforeMap imgs) n).isSome = true ↔
          ∃ img ∈ imgs, img.type = ImgType.before ∧
            getImageNumber img.filename = n) ∧
       ((mapGet (afterMap imgs) n).isSome = true ↔
          ∃ img ∈ imgs, img.type = ImgType.after ∧
            getImageNumber img.filename = n))) := by
  refine ⟨?_, ?_, mem_reconcileNums imgs, rfl, ?_⟩
  · unfold reconcileNums
    exact List.sorted_insertionSort _ _
  · unfold reconcileNums
    exact ((List.perm_insertionSort _ _).nodup_iff).mpr (nodup_setDedup _)
  · intro n hn
    have hpos := pos_of_mem_reconcileNums imgs n hn
    constructor
    · rw [mapGet_isSome, mem_keys_beforeMap]
      exact ⟨fun hx => hx.2, fun hx => ⟨hpos, hx⟩⟩
    · rw [mapGet_isSome, mem_keys_afterMap]
      exact ⟨fun hx => hx.2, fun hx => ⟨hpos, hx⟩⟩

/-- Witness for C1 on a concrete asset list: ordinal 1 is reconciled, and its
before side is reported present exactly when a before-asset numbered 1
exists. -/
theorem C1_witness :
    (1 : Int) ∈ reconcileNums imgs0 ∧
    ((mapGet (beforeMap imgs0) 1).isSome = true ↔
      ∃ img ∈ imgs0, img.type = ImgType.before ∧
        getImageNumber img.filename = 1) := by
  have h1 : (1 : Int) ∈ reconcileNums imgs0 :=
    ((C1_pairing_reconciler imgs0).2.2.1 1).mpr
      ⟨by decide, Or.inl ⟨img_b1, by decide, rfl, by decide⟩⟩
  exact ⟨h1, ((C1_pairing_reconciler imgs0).2.2.2.2 1 h1).1⟩

/-! ### Claim C8 -/

/-- C8: an asset whose filename yields ordinal 0, a negative ordinal or no
parseable ordinal is excluded from pairing: every reconciled ordinal is
positive, and discarding all such assets leaves the reconciled pair list
unchanged. -/
theorem C8_nonpositive_excluded (imgs : List S3Image) :
    (∀ n ∈ reconcileNums imgs, 0 < n) ∧
    reconcilePairs imgs =
      reconcilePairs (imgs.filter (fun img => 0 < getImageNumber img.filename)) := by
  refine ⟨fun n hn => pos_of_mem_reconcileNums imgs n hn, ?_⟩
  unfold reconcilePairs reconcileNums
  rw [beforeMap_filter_pos, afterMap_filter_pos]

/-- Witness for C8 at a concrete list containing a `0.jpg` and an unnumbered
asset. -/
theorem C8_witness :
    (0 : Int) < 1 ∧
    reconcilePairs imgs0 =
      reconcilePairs (imgs0.filter (fun img => 0 < getImageNumber img.filename)) :=
  ⟨(C8_nonpositive_excluded imgs0).1 1 (by decide), (C8_nonpositive_excluded imgs0).2⟩

/-! ### Claim C2 -/

/-- C2 counterexample: on "a12.mp3" the anchored rule of the claim yields no
ordinal and the image extractor duly returns the sentinel, yet the audio
extractor returns 12 — the audio catalog does not use the same extraction
rule. -/
theorem C2_counterexample :
    specOrdinal "a12.mp3" = none ∧ getImageNumber "a12.mp3" = -1 ∧
      getAudioNumber "a12.mp3" = 12 :=
  ⟨by decide, by decide, by decide⟩

/-- C2 (amended): image-side extraction implements the anchored
leading-digits-then-dot rule exactly, returning the captured integer on a
match and the no-ordinal sentinel -1 otherwise; audio-side extraction agrees
with that rule whenever it matches, but being unanchored it may also return
an ordinal on filenames the anchored rule rejects. -/
theorem C2_ordinal_extraction :
    (∀ s : String,
      getImageNumber s = ((specOrdinal s).map (fun n => (n : Int))).getD (-1)) ∧
    (∀ (s : String) (n : Nat), specOrdinal s = some n → getAudioNumber s = n) := by
  constructor
  · intro s
    unfold getImageNumber
    rw [specOrdinal_eq]
    cases hld : leadingDigitsDot s.data <;> simp [hld]
  · intro s n h
    rw [specOrdinal_eq] at h
    cases hd : s.data with
    | nil => rw [hd] at h; simp [leadingDigitsDot] at h
    | cons c cs =>
      have hs : s ≠ "" := by
        intro he
        rw [he] at hd
        have hn : ([] : List Char) = c :: cs := hd
        exact List.noConfusion hn
      rw [hd] at h
      unfold getAudioNumber
      rw [if_neg hs, hd, scanAudio_of_leading (c :: cs) n h]
      rfl

/-- Witness for C2 on a filename the anchored rule accepts. -/
theorem C2_witness : getAudioNumber "7.mp3" = 7 :=
  C2_ordinal_extraction.2 "7.mp3" 7 (by decide)

/-! ### Claim C10 -/

/-- C10: building auth headers from the session store is total over the three
classes of stored content, returns the empty header object exactly on an
absent or unparsable entry, and returns only the Basic header on parsed
credentials. -/
theorem C10_getAuthHeaders_total (stored : StoredVal) :
    (stored = StoredVal.absent ∨ stored = StoredVal.junk →
      getAuthHeaders stored = []) ∧
    (∀ c : Credentials, stored = StoredVal.creds c →
      getAuthHeaders stored = [("Authorization", basicAuth c)]) ∧
    (getAuthHeaders stored = [] ∨ ∃ c : Credentials, stored = StoredVal.creds c) := by
  rcases stored with _ | _ | c
  · exact ⟨fun _ => rfl, fun c h => StoredVal.noConfusion h, Or.inl rfl⟩
  · exact ⟨fun _ => rfl, fun c h => StoredVal.noConfusion h, Or.inl rfl⟩
  · refine ⟨fun h => ?_, fun c2 h => by rw [h]; rfl, Or.inr ⟨c, rfl⟩⟩
    rcases h with h | h <;> exact StoredVal.noConfusion h

/-- Witness for C10 at concrete store contents. -/
theorem C10_witness :
    getAuthHeaders StoredVal.junk = [] ∧
    getAuthHeaders (StoredVal.creds { username := "admin", password := "pw" }) =
      [("Authorization", basicAuth { username := "admin", password := "pw" })] :=
  ⟨(C10_getAuthHeaders_total StoredVal.junk).1 (Or.inr rfl),
   (C10_getAuthHeaders_total
      (StoredVal.creds { username := "admin", password := "pw" })).2.1 _ rfl⟩

/-! ### Claim C3 -/

/-- C3 counterexample: a 401 on the image-listing request of an authenticated
session leaves the session authenticated and the cached credentials in
place — the forced logout the claim requires does not happen. -/
theorem C3_counterexample :
    (ImageManager.fetchImages "art-restoration" none (HttpResult.ok 401 none)
        st1).isAuthenticated = true ∧
    (ImageManager.fetchImages "art-restoration" none (HttpResult.ok 401 none)
        st1).credentials = some { username := "admin", password := "pw" } ∧
    (ImageManager.fetchImages "art-restoration" none (HttpResult.ok 401 none)
        st1).storedAuth = StoredVal.creds { username := "admin", password := "pw" } :=
  ⟨rfl, rfl, rfl⟩

/-- C3 (amended): only the category fetch reacts to a 401 by logging out and
clearing the cached credentials; the image listing, image upload, image
delete, audio listing, audio upload and audio delete handlers leave the
authentication state and the credential cache unchanged on every response,
including 401. -/
theorem C3_session_termination (st : AppState) :
    (∀ body : Option (List Category),
      st.isAuthenticated = true → st.credentials.isSome = true →
        authFields (Home.fetchCategories (HttpResult.ok 401 body) st) =
          (false, none, StoredVal.absent)) ∧
    (∀ (category : String) (subcat : Option String)
        (resp : HttpResult (Option (List S3Image))),
      authFields (ImageManager.fetchImages category subcat resp st) = authFields st) ∧
    (∀ (category : String) (subcat : Option String) (isVideo : Bool)
        (resp : MutationResp (List S3Image)),
      authFields (ImageManager.handleUpload category subcat isVideo resp st).1 =
        authFields st) ∧
    (∀ (category : String) (subcat : Option String) (confirmed : Bool)
        (resp : MutationResp (List S3Image)),
      authFields (ImageManager.handleDelete category subcat confirmed resp st).1 =
        authFields st) ∧
    (∀ resp : HttpResult (Option (List AudioFile)),
      authFields (AudioManager.fetchAudios resp st) = authFields st) ∧
    (∀ resp : MutationResp (List AudioFile),
      authFields (AudioManager.handleFileSelect resp st).1 = authFields st) ∧
    (∀ (confirmed : Bool) (resp : MutationResp (List AudioFile)),
      authFields (AudioManager.handleDelete confirmed resp st).1 = authFields st) := by
  refine ⟨?_, ?_, ?_, ?_, ?_, ?_, ?_⟩
  · intro body h1 h2
    obtain ⟨cr, hcr⟩ := Option.isSome_iff_exists.mp h2
    simp [Home.fetchCategories, Home.handleLogout, authFields, h1, hcr]
  · intro category subcat resp
    rcases resp with ⟨s, b⟩ | _
    · rcases b with _ | imgs <;> rfl
    · rfl
  · intro category subcat isVideo resp
    rcases resp with refetch | d | _
    · rcases refetch with ⟨s, b⟩ | _
      · rcases b with _ | imgs <;> rfl
      · rfl
    · rfl
    · rfl
  · intro category subcat confirmed resp
    cases confirmed
    · rfl
    · rcases resp with refetch | d | _
      · rcases refetch with ⟨s, b⟩ | _
        · rcases b with _ | imgs <;> rfl
        · rfl
      · rfl
      · rfl
  · intro resp
    rcases resp with ⟨s, b⟩ | _
    · rcases b with _ | l <;> rfl
    · rfl
  · intro resp
    rcases resp with refetch | d | _
    · rcases refetch with ⟨s, b⟩ | _
      · rcases b with _ | l <;> rfl
      · rfl
    · rfl
    · rfl
  · intro confirmed resp
    cases confirmed
    · rfl
    · rcases resp with refetch | d | _
      · rcases refetch with ⟨s, b⟩ | _
        · rcases b with _ | l <;> rfl
        · rfl
      · rfl
      · rfl

/-- Witness for C3 at a concrete authenticated state: a 401 on the category
fetch does clear the session. -/
theorem C3_witness :
    authFields (Home.fetchCategories (HttpResult.ok 401 none) st1) =
      (false, none, StoredVal.absent) :=
  (C3_session_termination st1).1 none rfl rfl

/-! ### Claim C4 -/

/-- C4 counterexample: with credentials cached, the image requests build the
Basic header from them, but the audio list, upload and delete requests carry
no Authorization header at all. -/
theorem C4_counterexample :
    getAuthHeaders (StoredVal.creds { username := "admin", password := "pw" }) =
      [("Authorization", basicAuth { username := "admin", password := "pw" })] ∧
    (¬ ∃ v, ("Authorization", v) ∈ audioListHeaders) ∧
    (¬ ∃ v, ("Authorization", v) ∈ audioUploadHeaders) ∧
    (¬ ∃ v, ("Authorization", v) ∈ audioDeleteHeaders) := by
  refine ⟨rfl, ?_, ?_, ?_⟩ <;> rintro ⟨v, hv⟩ <;> cases hv

/-- C4 (amended): the login probe, category fetch and the image listing,
upload and delete requests carry the Basic header built from the supplied or
cached credentials; the audio list, upload and delete requests carry no
Authorization header. -/
theorem C4_request_headers :
    (∀ c : Credentials,
      listHeaders (StoredVal.creds c) = [("Authorization", basicAuth c)] ∧
      uploadHeaders (StoredVal.creds c) = [("Authorization", basicAuth c)] ∧
      deleteHeaders (StoredVal.creds c) = [("Authorization", basicAuth c)] ∧
      categoriesHeaders c = [("Authorization", basicAuth c)]) ∧
    (∀ u p : String,
      loginHeaders u p = [("Authorization", "Basic " ++ btoa (u ++ ":" ++ p))]) ∧
    audioListHeaders = [] ∧ audioUploadHeaders = [] ∧ audioDeleteHeaders = [] :=
  ⟨fun _ => ⟨rfl, rfl, rfl, rfl⟩, fun _ _ => rfl, rfl, rfl, rfl⟩

/-! ### Claim C5 -/

/-- C5: for the image and audio upload/delete handlers, a non-2xx response
surfaces the backend's error detail and leaves the whole state unchanged,
while a 2xx response replaces the listing with the freshly re-fetched
backend listing (no optimistic local insert or removal). -/
theorem C5_mutation_refetch (category : String) (subcat : Option String)
    (isVideo : Bool) (detail : String) (st : AppState) :
    ImageManager.handleUpload category subcat isVideo
        (MutationResp.failure detail) st = (st, "Upload failed: " ++ detail) ∧
    ImageManager.handleDelete category subcat true
        (MutationResp.failure detail) st = (st, some ("Delete failed: " ++ detail)) ∧
    (∀ (status : Nat) (imgs : List S3Image),
      (ImageManager.handleUpload category subcat isVideo
          (MutationResp.success (HttpResult.ok status (some imgs))) st).1.images =
        ImageManager.filterListing category subcat imgs) ∧
    (∀ (status : Nat) (imgs : List S3Image),
      (ImageManager.handleDelete category subcat true
          (MutationResp.success (HttpResult.ok status (some imgs))) st).1.images =
        ImageManager.filterListing category subcat imgs) ∧
    AudioManager.handleFileSelect (MutationResp.failure detail) st =
      (st, "Upload failed: " ++ detail) ∧
    AudioManager.handleDelete true (MutationResp.failure detail) st =
      (st, some ("Delete failed: " ++ detail)) ∧
    (∀ (status : Nat) (l : List AudioFile),
      (AudioManager.handleFileSelect
          (MutationResp.success (HttpResult.ok status (some l))) st).1.audios = l) ∧
    (∀ (status : Nat) (l : List AudioFile),
      (AudioManager.handleDelete true
          (MutationResp.success (HttpResult.ok status (some l))) st).1.audios = l) :=
  ⟨rfl, rfl, fun _ _ => rfl, fun _ _ => rfl, rfl, rfl, fun _ _ => rfl, fun _ _ => rfl⟩

/-! ### Claim C6 -/

/-- C6: during login, a 401 probe response shows the invalid-credentials
message without entering the authenticated state or touching the credential
cache; any other non-2xx response shows the generic failure; a network error
shows the connectivity failure; and a 2xx response alone caches the supplied
credentials and authenticates. -/
theorem C6_login (u p : String) (st : AppState) :
    ((Home.handleLogin u p (HttpResult.ok 401 ()) st).authError =
        "Invalid username or password" ∧
      (Home.handleLogin u p (HttpResult.ok 401 ()) st).isAuthenticated =
        st.isAuthenticated ∧
      (Home.handleLogin u p (HttpResult.ok 401 ()) st).credentials = st.credentials ∧
      (Home.handleLogin u p (HttpResult.ok 401 ()) st).storedAuth = st.storedAuth) ∧
    (∀ status : Nat, status ≠ 401 → respOk status = false →
      (Home.handleLogin u p (HttpResult.ok status ()) st).authError =
        "Authentication failed" ∧
      (Home.handleLogin u p (HttpResult.ok status ()) st).isAuthenticated =
        st.isAuthenticated ∧
      (Home.handleLogin u p (HttpResult.ok status ()) st).credentials =
        st.credentials ∧
      (Home.handleLogin u p (HttpResult.ok status ()) st).storedAuth =
        st.storedAuth) ∧
    ((Home.handleLogin u p HttpResult.networkError st).authError =
        "Failed to connect to server" ∧
      (Home.handleLogin u p HttpResult.networkError st).isAuthenticated =
        st.isAuthenticated ∧
      (Home.handleLogin u p HttpResult.networkError st).credentials =
        st.credentials ∧
      (Home.handleLogin u p HttpResult.networkError st).storedAuth = st.storedAuth) ∧
    (∀ status : Nat, respOk status = true →
      (Home.handleLogin u p (HttpResult.ok status ()) st).isAuthenticated = true ∧
      (Home.handleLogin u p (HttpResult.ok status ()) st).credentials =
        some { username := u, password := p } ∧
      (Home.handleLogin u p (HttpResult.ok status ()) st).storedAuth =
        StoredVal.creds { username := u, password := p }) := by
  refine ⟨⟨rfl, rfl, rfl, rfl⟩, ?_, ⟨rfl, rfl, rfl, rfl⟩, ?_⟩
  · intro status h401 hok
    refine ⟨?_, ?_, ?_, ?_⟩ <;> simp [Home.handleLogin, h401, hok]
  · intro status hok
    have h401 : status ≠ 401 := by
      intro he
      rw [he] at hok
      exact absurd hok (by decide)
    refine ⟨?_, ?_, ?_⟩ <;> simp [Home.handleLogin, h401, hok]

/-- Witness for C6 at concrete status codes. -/
theorem C6_witness :
    (Home.handleLogin "admin" "wrong" (HttpResult.ok 500 ()) st0).authError =
      "Authentication failed" ∧
    (Home.handleLogin "admin" "pw" (HttpResult.ok 200 ()) st0).isAuthenticated = true :=
  ⟨((C6_login "admin" "wrong" st0).2.1 500 (by decide) (by decide)).1,
   ((C6_login "admin" "pw" st0).2.2.2 200 (by decide)).1⟩

/-! ### Claim C9 -/

/-- C9 counterexample: with the base URL configured to a non-default value,
the image listing URL follows the configuration but the audio listing URL is
still the hardcoded local default. -/
theorem C9_counterexample :
    apiUrl (some "https://api.example.com") = "https://api.example.com" ∧
    listUrl (some "https://api.example.com") =
      "https://api.example.com" ++ "/admin/examples/list" ∧
    audioListUrl ≠
      apiUrl (some "https://api.example.com") ++ "/admin/examples/audio/list" :=
  ⟨by decide, by decide, by decide⟩

/-- C9 (amended): the category, image-listing, upload and delete URLs are
built from the configured base URL, which falls back to the fixed local
default when absent or empty; the audio list, upload and delete URLs are
hardcoded to the local default and ignore the configuration. -/
theorem C9_request_urls (env : Option String) (img : S3Image) (a : AudioFile) :
    categoriesUrl env = apiUrl env ++ "/admin/examples/categories" ∧
    listUrl env = apiUrl env ++ "/admin/examples/list" ∧
    uploadUrl env = apiUrl env ++ "/admin/examples/upload" ∧
    deleteUrl env img = apiUrl env ++ "/admin/examples/delete/" ++ deletePath img ∧
    apiUrl none = "http://localhost:8000" ∧
    apiUrl (some "") = "http://localhost:8000" ∧
    (∀ s : String, s ≠ "" → apiUrl (some s) = s) ∧
    audioListUrl = "http://localhost:8000/admin/examples/audio/list" ∧
    audioUploadUrl = "http://localhost:8000/admin/examples/audio/upload" ∧
    audioDeleteUrl a = "http://localhost:8000/admin/examples/audio/delete/" ++
      a.speaker_mode ++ "/" ++ a.language ++ "/" ++ a.filename := by
  refine ⟨rfl, rfl, rfl, rfl, rfl, rfl, ?_, rfl, rfl, rfl⟩
  intro s hs
  simp [apiUrl, hs]

/-- Witness for C9 at a concrete configured base URL. -/
theorem C9_witness :
    apiUrl (some "https://api.example.com") = "https://api.example.com" :=
  (C9_request_urls (some "https://api.example.com") img_b1 aud1).2.2.2.2.2.2.1
    "https://api.example.com" (by decide)

/-! ### Claim C7 -/

/-- C7: for every audio category, the grid renders
`max(largest extracted ordinal, 3)` slots — hence never fewer than three —
and the upload affordance targets `max(existing ordinals) + 1`, where the
maximum is the largest extracted ordinal of the category's assets and `0`
when the category is empty. -/
theorem C7_audio_slots (audios : List AudioFile) (sp lang : String) :
    (AudioManager.audioSlots audios sp lang).length =
      max (AudioManager.maxNumber audios sp lang) 3 ∧
    3 ≤ (AudioManager.audioSlots audios sp lang).length ∧
    AudioManager.nextAudioNumber audios sp lang =
      AudioManager.maxNumber audios sp lang + 1 ∧
    (∀ a ∈ AudioManager.getCategoryAudios audios sp lang,
      getAudioNumber a.filename ≤ AudioManager.maxNumber audios sp lang) ∧
    (AudioManager.maxNumber audios sp lang = 0 ∨
      ∃ a ∈ AudioManager.getCategoryAudios audios sp lang,
        getAudioNumber a.filename = AudioManager.maxNumber audios sp lang) ∧
    (AudioManager.getCategoryAudios audios sp lang = [] →
      AudioManager.maxNumber audios sp lang = 0) := by
  have hlen : (AudioManager.audioSlots audios sp lang).length =
      max (AudioManager.maxNumber audios sp lang) 3 := by
    unfold AudioManager.audioSlots
    rw [List.length_map, List.length_range]
  refine ⟨hlen, ?_, rfl, ?_, ?_, ?_⟩
  · rw [hlen]
    exact le_max_right _ _
  · intro a ha
    exact le_foldr_max _ _ (List.mem_map.mpr ⟨a, ha, rfl⟩)
  · rcases foldr_max_mem ((AudioManager.getCategoryAudios audios sp lang).map
        (fun a => getAudioNumber a.filename)) with h0 | hm
    · exact Or.inl h0
    · obtain ⟨a, ha, hfa⟩ := List.mem_map.mp hm
      exact Or.inr ⟨a, ha, hfa⟩
  · intro h
    unfold AudioManager.maxNumber
    rw [h]
    rfl

/-- Witness for C7 at a concrete audio catalog. -/
theorem C7_witness :
    (AudioManager.audioSlots auds0 "single-speaker" "english").length =
      max (AudioManager.maxNumber auds0 "single-speaker" "english") 3 ∧
    getAudioNumber aud1.filename ≤
      AudioManager.maxNumber auds0 "single-speaker" "english" :=
  ⟨(C7_audio_slots auds0 "single-speaker" "english").1,
   (C7_audio_slots auds0 "single-speaker" "english").2.2.2.1 aud1 (by decide)⟩

end ComicFusionAdmin
